import Mathlib

/-!
Verification development for the ratio-gang-cli repository (src/lib.rs,
src/main.rs).  The Rust code is shallowly embedded: JSON bodies are an
inductive `Json` type with a recursive-descent parser modelling
serde_json, the serde-derived structs become Lean structures with
decoders that follow serde defaults (unknown fields ignored, missing
non-Option fields fail, Option fields default to none), f64 values are
modelled as exact rationals, and a Rust panic (Vec index out of bounds)
is a dedicated `RunResult.panicked` outcome.
-/

set_option maxRecDepth 100000

attribute [local semireducible] Rat.mul Rat.inv Rat.add Rat.sub Rat.ofScientific

deriving instance DecidableEq for Except

/-- Model of a JSON document as parsed by serde_json. -/
inductive Json where
  | null : Json
  | bool (b : Bool) : Json
  | num (q : Rat) : Json
  | str (s : String) : Json
  | arr (items : List Json) : Json
  | obj (members : List (String × Json)) : Json

/-- Drop leading JSON whitespace. -/
def skipWs : List Char → List Char
  | [] => []
  | c :: rest =>
    if c = ' ' ∨ c = '\n' ∨ c = '\t' ∨ c = '\r' then skipWs rest else c :: rest

/-- ASCII decimal digit test. -/
def isDigitChar (c : Char) : Bool := decide ('0' ≤ c ∧ c ≤ '9')

/-- Split off the maximal leading run of digits. -/
def takeDigits : List Char → List Char × List Char
  | [] => ([], [])
  | c :: rest =>
    if isDigitChar c then
      let p := takeDigits rest
      (c :: p.1, p.2)
    else ([], c :: rest)

/-- Value of a digit string. -/
def digitsVal (ds : List Char) : Nat :=
  ds.foldl (fun n c => 10 * n + (c.toNat - 48)) 0

/-- Parse a JSON number (sign, integer part, optional fraction; the
exponent form is not needed by any input considered here). -/
def parseNumber (s : List Char) : Option (Rat × List Char) :=
  let signed : Bool × List Char :=
    match s with
    | '-' :: rest => (true, rest)
    | _ => (false, s)
  let ds := takeDigits signed.2
  if ds.1.isEmpty then none
  else
    let intPart : Rat := (digitsVal ds.1 : Nat)
    match ds.2 with
    | '.' :: s3 =>
      let fs := takeDigits s3
      if fs.1.isEmpty then none
      else
        let q : Rat := intPart + (digitsVal fs.1 : Rat) / ((10 : Rat) ^ fs.1.length)
        some (if signed.1 then -q else q, fs.2)
    | _ => some (if signed.1 then -intPart else intPart, ds.2)

/-- The value of a backslash escape inside a JSON string (the simple
escapes; the hex form is not needed by any input considered here). -/
def escVal (e : Char) : Option Char :=
  if e = '"' ∨ e = '\\' ∨ e = '/' then some e
  else if e = 'n' then some '\n'
  else if e = 't' then some '\t'
  else if e = 'r' then some '\r'
  else none

/-- Parse the characters of a JSON string after its opening quote,
returning the content and the input after the closing quote. -/
def parseStringChars : List Char → Option (List Char × List Char)
  | [] => none
  | '"' :: rest => some ([], rest)
  | '\\' :: e :: rest =>
    match escVal e with
    | none => none
    | some c =>
      match parseStringChars rest with
      | none => none
      | some p => some (c :: p.1, p.2)
  | c :: rest =>
    match parseStringChars rest with
    | none => none
    | some p => some (c :: p.1, p.2)

mutual

/-- Parse one JSON value (fuelled recursive descent). -/
def parseValue : Nat → List Char → Option (Json × List Char)
  | 0, _ => none
  | fuel + 1, s =>
    match skipWs s with
    | 'n' :: 'u' :: 'l' :: 'l' :: rest => some (.null, rest)
    | 't' :: 'r' :: 'u' :: 'e' :: rest => some (.bool true, rest)
    | 'f' :: 'a' :: 'l' :: 's' :: 'e' :: rest => some (.bool false, rest)
    | '"' :: rest =>
      match parseStringChars rest with
      | some p => some (.str (String.mk p.1), p.2)
      | none => none
    | '[' :: rest =>
      match skipWs rest with
      | ']' :: r2 => some (.arr [], r2)
      | r1 =>
        match parseElems fuel r1 with
        | some p => some (.arr p.1, p.2)
        | none => none
    | '\x7b' :: rest =>
      match skipWs rest with
      | '\x7d' :: r2 => some (.obj [], r2)
      | r1 =>
        match parseMembers fuel r1 with
        | some p => some (.obj p.1, p.2)
        | none => none
    | s1 =>
      match parseNumber s1 with
      | some p => some (.num p.1, p.2)
      | none => none

/-- Parse the comma-separated elements of a non-empty JSON array, up to
and including the closing bracket. -/
def parseElems : Nat → List Char → Option (List Json × List Char)
  | 0, _ => none
  | fuel + 1, s =>
    match parseValue fuel s with
    | none => none
    | some p =>
      match skipWs p.2 with
      | ',' :: r2 =>
        match parseElems fuel r2 with
        | some q => some (p.1 :: q.1, q.2)
        | none => none
      | ']' :: r2 => some ([p.1], r2)
      | _ => none

/-- Parse the members of a non-empty JSON object, up to and including
the closing brace. -/
def parseMembers : Nat → List Char → Option (List (String × Json) × List Char)
  | 0, _ => none
  | fuel + 1, s =>
    match skipWs s with
    | '"' :: r1 =>
      match parseStringChars r1 with
      | none => none
      | some p =>
        match skipWs p.2 with
        | ':' :: r3 =>
          match parseValue fuel r3 with
          | none => none
          | some q =>
            match skipWs q.2 with
            | ',' :: r5 =>
              match parseMembers fuel r5 with
              | some t => some ((String.mk p.1, q.1) :: t.1, t.2)
              | none => none
            | '\x7d' :: r5 => some ([(String.mk p.1, q.1)], r5)
            | _ => none
        | _ => none
    | _ => none

end

/-- Model of serde_json parsing a whole input string: one value, then
only whitespace to the end. -/
def parseJson (s : String) : Option Json :=
  match parseValue (s.length + 2) s.data with
  | none => none
  | some p => if skipWs p.2 = [] then some p.1 else none

/-- Field lookup in a decoded JSON object (serde takes the first
occurrence of a name). -/
def getField (fields : List (String × Json)) (name : String) : Option Json :=
  match fields.find? (fun p => p.1 == name) with
  | some p => some p.2
  | none => none

/-- Decode a JSON bool. -/
def decodeBool : Json → Except String Bool
  | .bool b => .ok b
  | _ => .error "type error"

/-- Decode an f64 field; every JSON number is accepted (the f64 value is
modelled as an exact rational). -/
def decodeF64 : Json → Except String Rat
  | .num q => .ok q
  | _ => .error "type error"

/-- Decode a JSON string. -/
def decodeStr : Json → Except String String
  | .str s => .ok s
  | _ => .error "type error"

/-- Decode a u32 field: an integral number in range. -/
def decodeU32 : Json → Except String Nat
  | .num q =>
    if q.den = 1 ∧ 0 ≤ q.num ∧ q.num < 4294967296 then .ok q.num.toNat
    else .error "type error"
  | _ => .error "type error"

/-- Decode a u64 field: an integral number in range. -/
def decodeU64 : Json → Except String Nat
  | .num q =>
    if q.den = 1 ∧ 0 ≤ q.num ∧ q.num < 18446744073709551616 then .ok q.num.toNat
    else .error "type error"
  | _ => .error "type error"

/-- A serde required field: absence is a decode error. -/
def reqField (fields : List (String × Json)) (name : String)
    (d : Json → Except String α) : Except String α :=
  match getField fields name with
  | none => .error ("missing field " ++ name)
  | some j => d j

/-- A serde Option field: absence or null decodes to none. -/
def optField (fields : List (String × Json)) (name : String)
    (d : Json → Except String α) : Except String (Option α) :=
  match getField fields name with
  | none => .ok none
  | some .null => .ok none
  | some j =>
    match d j with
    | .ok v => .ok (some v)
    | .error e => .error e

/-- Decode every element of a list. -/
def decodeEach (d : Json → Except String α) : List Json → Except String (List α)
  | [] => .ok []
  | j :: rest =>
    match d j with
    | .error e => .error e
    | .ok v =>
      match decodeEach d rest with
      | .error e => .error e
      | .ok vs => .ok (v :: vs)

/-- Decode a Vec field from a JSON array. -/
def decodeVec (d : Json → Except String α) : Json → Except String (List α)
  | .arr es => decodeEach d es
  | _ => .error "type error"

/-- lib.rs struct Roi. -/
structure Roi where
  times : Rat
  currency : String
  percentage : Rat
deriving DecidableEq

/-- lib.rs struct CoingeckoMarketsV2 (one element of the coins/markets
response array). -/
structure CoingeckoMarketsV2 where
  id : String
  symbol : String
  name : String
  image : String
  current_price : Rat
  market_cap : Rat
  market_cap_rank : Nat
  fully_diluted_valuation : Nat
  total_volume : Rat
  high_24h : Rat
  low_24h : Rat
  price_change_24h : Rat
  price_change_percentage_24h : Rat
  market_cap_change_24h : Rat
  market_cap_change_percentage_24h : Rat
  circulating_supply : Rat
  total_supply : Rat
  max_supply : Option Rat
  ath : Rat
  ath_change_percentage : Rat
  ath_date : String
  atl : Rat
  atl_change_percentage : Rat
  atl_date : String
  roi : Option Roi
  last_updated : String
deriving DecidableEq

/-- lib.rs struct Address. -/
structure Address where
  address1 : String
  city : String
  postal_code : String
  state : String
deriving DecidableEq

/-- lib.rs struct Branding. -/
structure Branding where
  icon_url : String
  logo_url : String
deriving DecidableEq

/-- lib.rs struct CompanyDetails (the results object of the equity
ticker-details response). -/
structure CompanyDetails where
  active : Bool
  address : Address
  branding : Option Branding
  cik : String
  composite_figi : String
  currency_name : String
  description : Option String
  homepage_url : Option String
  list_date : Option String
  locale : String
  market : String
  market_cap : Rat
  name : String
  phone_number : String
  primary_exchange : String
  round_lot : Nat
  share_class_figi : String
  share_class_shares_outstanding : Nat
  sic_code : String
  sic_description : String
  ticker : String
  ticker_root : String
  total_employees : Nat
  type_ : String
  weighted_shares_outstanding : Nat
deriving DecidableEq

/-- lib.rs struct TickerDetailsV3. -/
structure TickerDetailsV3 where
  status : String
  request_id : String
  results : CompanyDetails
deriving DecidableEq

/-- lib.rs struct OHCL (previous-day candle; the serde names T and t are
renamed to ticker and timestamp). -/
structure OHCL where
  ticker : String
  v : Nat
  vw : Rat
  o : Rat
  c : Rat
  h : Rat
  l : Rat
  timestamp : Nat
  n : Nat
deriving DecidableEq

/-- lib.rs struct AggsTickerV2. -/
structure AggsTickerV2 where
  ticker : String
  query_count : Nat
  results_count : Nat
  adjusted : Bool
  results : List OHCL
  status : String
  request_id : String
  count : Nat
deriving DecidableEq

/-- lib.rs struct PolygonIoErrorResponse. -/
structure PolygonIoErrorResponse where
  status : String
  request_id : String
  message : String
deriving DecidableEq

/-- serde decode of Roi. -/
def decodeRoi : Json → Except String Roi
  | .obj fs => do
    let times ← reqField fs "times" decodeF64
    let currency ← reqField fs "currency" decodeStr
    let percentage ← reqField fs "percentage" decodeF64
    .ok ⟨times, currency, percentage⟩
  | _ => .error "type error"

/-- serde decode of CoingeckoMarketsV2 (only max_supply and roi are
Option fields; every other declared field is required; unknown fields
are ignored). -/
def decodeCoingeckoMarketsV2 : Json → Except String CoingeckoMarketsV2
  | .obj fs => do
    let id ← reqField fs "id" decodeStr
    let symbol ← reqField fs "symbol" decodeStr
    let name ← reqField fs "name" decodeStr
    let image ← reqField fs "image" decodeStr
    let current_price ← reqField fs "current_price" decodeF64
    let market_cap ← reqField fs "market_cap" decodeF64
    let market_cap_rank ← reqField fs "market_cap_rank" decodeU32
    let fully_diluted_valuation ← reqField fs "fully_diluted_valuation" decodeU64
    let total_volume ← reqField fs "total_volume" decodeF64
    let high_24h ← reqField fs "high_24h" decodeF64
    let low_24h ← reqField fs "low_24h" decodeF64
    let price_change_24h ← reqField fs "price_change_24h" decodeF64
    let price_change_percentage_24h ← reqField fs "price_change_percentage_24h" decodeF64
    let market_cap_change_24h ← reqField fs "market_cap_change_24h" decodeF64
    let market_cap_change_percentage_24h ← reqField fs "market_cap_change_percentage_24h" decodeF64
    let circulating_supply ← reqField fs "circulating_supply" decodeF64
    let total_supply ← reqField fs "total_supply" decodeF64
    let max_supply ← optField fs "max_supply" decodeF64
    let ath ← reqField fs "ath" decodeF64
    let ath_change_percentage ← reqField fs "ath_change_percentage" decodeF64
    let ath_date ← reqField fs "ath_date" decodeStr
    let atl ← reqField fs "atl" decodeF64
    let atl_change_percentage ← reqField fs "atl_change_percentage" decodeF64
    let atl_date ← reqField fs "atl_date" decodeStr
    let roi ← optField fs "roi" decodeRoi
    let last_updated ← reqField fs "last_updated" decodeStr
    .ok ⟨id, symbol, name, image, current_price, market_cap, market_cap_rank,
        fully_diluted_valuation, total_volume, high_24h, low_24h, price_change_24h,
        price_change_percentage_24h, market_cap_change_24h,
        market_cap_change_percentage_24h, circulating_supply, total_supply,
        max_supply, ath, ath_change_percentage, ath_date, atl,
        atl_change_percentage, atl_date, roi, last_updated⟩
  | _ => .error "type error"

/-- serde decode of Address. -/
def decodeAddress : Json → Except String Address
  | .obj fs => do
    let address1 ← reqField fs "address1" decodeStr
    let city ← reqField fs "city" decodeStr
    let postal_code ← reqField fs "postal_code" decodeStr
    let state ← reqField fs "state" decodeStr
    .ok ⟨address1, city, postal_code, state⟩
  | _ => .error "type error"

/-- serde decode of Branding. -/
def decodeBranding : Json → Except String Branding
  | .obj fs => do
    let icon_url ← reqField fs "icon_url" decodeStr
    let logo_url ← reqField fs "logo_url" decodeStr
    .ok ⟨icon_url, logo_url⟩
  | _ => .error "type error"

/-- serde decode of CompanyDetails (branding, description, homepage_url
and list_date are Option fields; everything else declared is required;
the serde rename maps the JSON key type to the field type_). -/
def decodeCompanyDetails : Json → Except String CompanyDetails
  | .obj fs => do
    let active ← reqField fs "active" decodeBool
    let address ← reqField fs "address" decodeAddress
    let branding ← optField fs "branding" decodeBranding
    let cik ← reqField fs "cik" decodeStr
    let composite_figi ← reqField fs "composite_figi" decodeStr
    let currency_name ← reqField fs "currency_name" decodeStr
    let description ← optField fs "description" decodeStr
    let homepage_url ← optField fs "homepage_url" decodeStr
    let list_date ← optField fs "list_date" decodeStr
    let locale ← reqField fs "locale" decodeStr
    let market ← reqField fs "market" decodeStr
    let market_cap ← reqField fs "market_cap" decodeF64
    let name ← reqField fs "name" decodeStr
    let phone_number ← reqField fs "phone_number" decodeStr
    let primary_exchange ← reqField fs "primary_exchange" decodeStr
    let round_lot ← reqField fs "round_lot" decodeU32
    let share_class_figi ← reqField fs "share_class_figi" decodeStr
    let share_class_shares_outstanding ← reqField fs "share_class_shares_outstanding" decodeU64
    let sic_code ← reqField fs "sic_code" decodeStr
    let sic_description ← reqField fs "sic_description" decodeStr
    let ticker ← reqField fs "ticker" decodeStr
    let ticker_root ← reqField fs "ticker_root" decodeStr
    let total_employees ← reqField fs "total_employees" decodeU32
    let type_ ← reqField fs "type" decodeStr
    let weighted_shares_outstanding ← reqField fs "weighted_shares_outstanding" decodeU64
    .ok ⟨active, address, branding, cik, composite_figi, currency_name,
        description, homepage_url, list_date, locale, market, market_cap, name,
        phone_number, primary_exchange, round_lot, share_class_figi,
        share_class_shares_outstanding, sic_code, sic_description, ticker,
        ticker_root, total_employees, type_, weighted_shares_outstanding⟩
  | _ => .error "type error"

/-- serde decode of TickerDetailsV3. -/
def decodeTickerDetailsV3 : Json → Except String TickerDetailsV3
  | .obj fs => do
    let status ← reqField fs "status" decodeStr
    let request_id ← reqField fs "request_id" decodeStr
    let results ← reqField fs "results" decodeCompanyDetails
    .ok ⟨status, request_id, results⟩
  | _ => .error "type error"

/-- serde decode of OHCL (JSON keys T and t for ticker and timestamp). -/
def decodeOHCL : Json → Except String OHCL
  | .obj fs => do
    let ticker ← reqField fs "T" decodeStr
    let v ← reqField fs "v" decodeU32
    let vw ← reqField fs "vw" decodeF64
    let o ← reqField fs "o" decodeF64
    let c ← reqField fs "c" decodeF64
    let h ← reqField fs "h" decodeF64
    let l ← reqField fs "l" decodeF64
    let timestamp ← reqField fs "t" decodeU64
    let n ← reqField fs "n" decodeU32
    .ok ⟨ticker, v, vw, o, c, h, l, timestamp, n⟩
  | _ => .error "type error"

/-- serde decode of AggsTickerV2 (JSON keys queryCount and resultsCount). -/
def decodeAggsTickerV2 : Json → Except String AggsTickerV2
  | .obj fs => do
    let ticker ← reqField fs "ticker" decodeStr
    let query_count ← reqField fs "queryCount" decodeU32
    let results_count ← reqField fs "resultsCount" decodeU32
    let adjusted ← reqField fs "adjusted" decodeBool
    let results ← reqField fs "results" (decodeVec decodeOHCL)
    let status ← reqField fs "status" decodeStr
    let request_id ← reqField fs "request_id" decodeStr
    let count ← reqField fs "count" decodeU32
    .ok ⟨ticker, query_count, results_count, adjusted, results, status, request_id, count⟩
  | _ => .error "type error"

/-- serde decode of PolygonIoErrorResponse. -/
def decodePolygonIoErrorResponse : Json → Except String PolygonIoErrorResponse
  | .obj fs => do
    let status ← reqField fs "status" decodeStr
    let request_id ← reqField fs "request_id" decodeStr
    let message ← reqField fs "message" decodeStr
    .ok ⟨status, request_id, message⟩
  | _ => .error "type error"

/-- serde_json from_str into TickerDetailsV3. -/
def from_str_TickerDetailsV3 (s : String) : Except String TickerDetailsV3 :=
  match parseJson s with
  | none => .error "syntax error"
  | some j => decodeTickerDetailsV3 j

/-- serde_json from_str into AggsTickerV2. -/
def from_str_AggsTickerV2 (s : String) : Except String AggsTickerV2 :=
  match parseJson s with
  | none => .error "syntax error"
  | some j => decodeAggsTickerV2 j

/-- serde_json from_str into PolygonIoErrorResponse. -/
def from_str_PolygonIoErrorResponse (s : String) : Except String PolygonIoErrorResponse :=
  match parseJson s with
  | none => .error "syntax error"
  | some j => decodePolygonIoErrorResponse j

/-- serde_json from_str into Vec of CoingeckoMarketsV2. -/
def from_str_CoingeckoMarketsList (s : String) : Except String (List CoingeckoMarketsV2) :=
  match parseJson s with
  | none => .error "syntax error"
  | some j => decodeVec decodeCoingeckoMarketsV2 j

/-- lib.rs const TONNE_TO_OUNCE. -/
def TONNE_TO_OUNCE : Rat := 35273.96194958

/-- lib.rs enum Error; the payloads of the transport-level variants are
modelled as diagnostic strings. -/
inductive Error where
  | InvalidUrl (msg : String)
  | SendRequest (msg : String)
  | Deserialization (msg : String) (asset : String)
  | UnexpectedStatus (msg : String)
  | EnvVarError (name : String)
  | PolygonApi (msg : String)
  | CoingeckoApi (body : String)
  | UnknownAssetName (name : String)
deriving DecidableEq

/-- Outcome of running one adapter on a received HTTP response: a value,
an error propagated with ?, or a Rust panic (slice index out of
bounds). -/
inductive RunResult (α : Type) where
  | ok (v : α)
  | error (e : Error)
  | panicked
deriving DecidableEq

/-- A received HTTP response: status code and body text. -/
structure HttpResponse where
  status : Nat
  body : String
deriving DecidableEq

/-- reqwest StatusCode is_success: 200..=299. -/
def status_is_success (code : Nat) : Bool := decide (200 ≤ code ∧ code < 300)

/-- lib.rs return_stock_market_cap, from the received response on: on a
2xx status decode TickerDetailsV3 and project results.market_cap, on any
other status decode PolygonIoErrorResponse and raise PolygonApi with its
message; either decode failure is Deserialization with the symbol. -/
def return_stock_market_cap (stock_symbol : String) (resp : HttpResponse) : RunResult Rat :=
  if status_is_success resp.status then
    match from_str_TickerDetailsV3 resp.body with
    | .ok ticker_details_v3 => .ok ticker_details_v3.results.market_cap
    | .error e => .error (.Deserialization e stock_symbol)
  else
    match from_str_PolygonIoErrorResponse resp.body with
    | .ok error_json => .error (.PolygonApi error_json.message)
    | .error e => .error (.Deserialization e stock_symbol)

/-- lib.rs return_gold_market_cap, from the received response on: on a
2xx status decode AggsTickerV2, then index results[0] (a panic when the
array is empty) and return c * above_ground * TONNE_TO_OUNCE; on any
other status decode PolygonIoErrorResponse as for stocks.  The asset
name carried by Deserialization is the literal gold ticker XAUUSD. -/
def return_gold_market_cap (above_ground : Rat) (resp : HttpResponse) : RunResult Rat :=
  if status_is_success resp.status then
    match from_str_AggsTickerV2 resp.body with
    | .ok aggs_ticker_v2 =>
      match aggs_ticker_v2.results with
      | [] => .panicked
      | first :: _ => .ok (first.c * above_ground * TONNE_TO_OUNCE)
    | .error e => .error (.Deserialization e "XAUUSD")
  else
    match from_str_PolygonIoErrorResponse resp.body with
    | .ok error_json => .error (.PolygonApi error_json.message)
    | .error e => .error (.Deserialization e "XAUUSD")

/-- lib.rs return_cyrpto_market_cap, from the received response on: on a
2xx status, a body equal to the literal string of an empty array is
CoingeckoApi(body) before any decoding; otherwise decode the Vec and
index element 0 (a panic when the decoded Vec is empty); on a non-2xx
status CoingeckoApi(body) with the raw body. -/
def return_cyrpto_market_cap (coingecko_id : String) (resp : HttpResponse) : RunResult Rat :=
  if status_is_success resp.status then
    if resp.body = "[]" then .error (.CoingeckoApi resp.body)
    else
      match from_str_CoingeckoMarketsList resp.body with
      | .ok [] => .panicked
      | .ok (first :: _) => .ok first.market_cap
      | .error e => .error (.Deserialization e coingecko_id)
  else .error (.CoingeckoApi resp.body)

/-- Model of the process environment: std env var lookup; a variable is
either present (with any string value, possibly empty) or absent. -/
def env_var (env : List (String × String)) (name : String) : Option String :=
  match env.find? (fun p => p.1 == name) with
  | some p => some p.2
  | none => none

/-- lib.rs struct ApiKeys. -/
structure ApiKeys where
  coingecko : String
  polygonio : String
deriving DecidableEq

/-- lib.rs get_required_envs: read POLYGON_KEY then COINGECKO_KEY, and
fail with EnvVarError naming the first variable whose lookup failed. -/
def get_required_envs (env : List (String × String)) : Except Error ApiKeys :=
  match env_var env "POLYGON_KEY" with
  | none => .error (.EnvVarError "POLYGON_KEY")
  | some polygon_value =>
    match env_var env "COINGECKO_KEY" with
    | none => .error (.EnvVarError "COINGECKO_KEY")
    | some coingecko_value => .ok ⟨coingecko_value, polygon_value⟩

/-- Rust str to_uppercase, on the ASCII identifiers considered here. -/
def rust_to_uppercase (s : String) : String := String.mk (s.data.map Char.toUpper)

/-- Rust str to_lowercase, on the ASCII identifiers considered here. -/
def rust_to_lowercase (s : String) : String := String.mk (s.data.map Char.toLower)

/-- main.rs enum MarketCapType. -/
inductive MarketCapType where
  | Gold
  | Stock
  | Crypto
  | Unknown
deriving DecidableEq

/-- main.rs identify_market_cap_type: gold and Gold first, then the
uppercase-equality arm, then the lowercase-equality arm, else Unknown. -/
def identify_market_cap_type (market_cap : String) : MarketCapType :=
  if market_cap = "gold" ∨ market_cap = "Gold" then .Gold
  else if market_cap = rust_to_uppercase market_cap then .Stock
  else if market_cap = rust_to_lowercase market_cap then .Crypto
  else .Unknown

/-- Rust f64 round: to the nearest integer, ties away from zero. -/
def rust_round (q : Rat) : Int :=
  if 0 ≤ q then ⌊q + 1 / 2⌋ else -⌊-q + 1 / 2⌋

/-- The tuple main.rs builds from the two fetched market caps: ratio,
numerator asset, denominator asset, numerator value, denominator value
(the if branch when the left cap is strictly smaller, else the else
branch). -/
structure RatioSelection where
  ratio : Rat
  numerator_asset : String
  denominator_asset : String
  numerator_value : Rat
  denominator_value : Rat
deriving DecidableEq

/-- main.rs lines 129-146: order the pair so the ratio is at most one. -/
def select_ratio (left_hand_market_cap : Rat) (asset_a : String)
    (right_hand_market_cap : Rat) (asset_b : String) : RatioSelection :=
  if left_hand_market_cap < right_hand_market_cap then
    ⟨left_hand_market_cap / right_hand_market_cap, asset_a, asset_b,
      left_hand_market_cap, right_hand_market_cap⟩
  else
    ⟨right_hand_market_cap / left_hand_market_cap, asset_b, asset_a,
      right_hand_market_cap, left_hand_market_cap⟩

/-- main.rs line 147: (ratio * 100.0) as u32 — truncation toward zero,
saturating at zero for negative values. -/
def main_percentage (r : Rat) : Nat := (⌊r * 100⌋).toNat

/-- The percentage inside create_ratio_gauge:
(ratio * 100.0).round() as usize. -/
def gauge_percentage (r : Rat) : Nat := (rust_round (r * 100)).toNat

/-- colored green: wrap in the ANSI green escape sequence. -/
def green (s : String) : String := "\x1b[32m" ++ s ++ "\x1b[0m"

/-- main.rs create_ratio_gauge: none models the panic on a ratio outside
[0, 1]; otherwise a 40-cell bar whose filled length is the rounded
ratio * total_length, with the rounded percentage. -/
def create_ratio_gauge (r : Rat) (total_length : Nat) : Option String :=
  if r < 0 ∨ 1 < r then none
  else
    let filled_length := (rust_round (r * total_length)).toNat
    let empty_length := total_length - filled_length
    let filled_part := green (String.join (List.replicate filled_length "█"))
    let empty_part := String.join (List.replicate empty_length " ")
    some ("[" ++ filled_part ++ empty_part ++ "] " ++ toString (gauge_percentage r) ++ "%")

/-- main.rs plain mode: numerator asset, denominator asset, truncated
percentage, space separated. -/
def plain_output (left_hand_market_cap : Rat) (asset_a : String)
    (right_hand_market_cap : Rat) (asset_b : String) : String :=
  let sel := select_ratio left_hand_market_cap asset_a right_hand_market_cap asset_b
  sel.numerator_asset ++ " " ++ sel.denominator_asset ++ " " ++ toString (main_percentage sel.ratio)

/-- The fields of the JSON object main.rs emits in json mode (market
caps truncated to u64). -/
structure JsonModeOutput where
  percentage : Nat
  numerator_asset : String
  numerator_market_cap : Nat
  denominator_asset : String
  denominator_market_cap : Nat
deriving DecidableEq

/-- main.rs json mode. -/
def json_mode_output (left_hand_market_cap : Rat) (asset_a : String)
    (right_hand_market_cap : Rat) (asset_b : String) : JsonModeOutput :=
  let sel := select_ratio left_hand_market_cap asset_a right_hand_market_cap asset_b
  ⟨main_percentage sel.ratio, sel.numerator_asset, (⌊sel.numerator_value⌋).toNat,
    sel.denominator_asset, (⌊sel.denominator_value⌋).toNat⟩

/-- main.rs default (gauge) mode: the gauge line then one line per asset
with its formatted market cap; the numfmt formatter is out of scope and
passed in as fmt; none models the gauge panic. -/
def gauge_mode_output (fmt : Rat → String) (left_hand_market_cap : Rat) (asset_a : String)
    (right_hand_market_cap : Rat) (asset_b : String) : Option String :=
  let sel := select_ratio left_hand_market_cap asset_a right_hand_market_cap asset_b
  match create_ratio_gauge sel.ratio 40 with
  | none => none
  | some gauge_line =>
    some (gauge_line ++ "\n" ++ sel.numerator_asset ++ ": " ++ fmt sel.numerator_value
      ++ "\n" ++ sel.denominator_asset ++ ": " ++ fmt sel.denominator_value)
/-- True exactly when the run ended in the UnexpectedStatus error kind. -/
def is_unexpected_status : RunResult Rat → Bool
  | .error (.UnexpectedStatus _) => true
  | _ => false

/-- C1: claimed behaviour fails on the code.  At HTTP 404 with the
undecodable body oops, the equity adapter returns Deserialization (the
decode diagnostic with the identifier), not an UnexpectedStatus error
with the HTTP status. -/
theorem C1_counterexample :
    return_stock_market_cap "AAPL" ⟨404, "oops"⟩
      = RunResult.error (Error.Deserialization "syntax error" "AAPL")
    ∧ is_unexpected_status (return_stock_market_cap "AAPL" ⟨404, "oops"⟩) = false
    ∧ is_unexpected_status (return_gold_market_cap 212582 ⟨404, "oops"⟩) = false := by
  decide

/-- C1 (amended): for every equity or gold adapter call whose response
has a non-2xx status and whose body does not decode as the provider
error shape, the adapter returns a Deserialization error carrying the
decode diagnostic and the asset identifier (never UnexpectedStatus). -/
theorem C1_amended_non2xx_undecodable_is_deserialization :
    ∀ (stock_symbol body : String) (code : Nat) (e : String) (above_ground : Rat),
    status_is_success code = false →
    from_str_PolygonIoErrorResponse body = Except.error e →
    return_stock_market_cap stock_symbol ⟨code, body⟩
      = RunResult.error (Error.Deserialization e stock_symbol)
    ∧ return_gold_market_cap above_ground ⟨code, body⟩
      = RunResult.error (Error.Deserialization e "XAUUSD") := by
  intro stock_symbol body code e above_ground hst hdec
  constructor
  · simp only [return_stock_market_cap, hst, Bool.false_eq_true, if_false, hdec]
  · simp only [return_gold_market_cap, hst, Bool.false_eq_true, if_false, hdec]

/-- C1 (witness): the amended theorem applied at HTTP 404 with body
oops. -/
theorem C1_amended_witness :
    return_stock_market_cap "AAPL" ⟨404, "oops"⟩
      = RunResult.error (Error.Deserialization "syntax error" "AAPL")
    ∧ return_gold_market_cap 1 ⟨404, "oops"⟩
      = RunResult.error (Error.Deserialization "syntax error" "XAUUSD") :=
  C1_amended_non2xx_undecodable_is_deserialization "AAPL" "oops" 404 "syntax error" 1
    (by decide) (by decide)

/-- An equity 2xx body whose results object carries every declared
field except market_cap. -/
def equity_no_cap_body : String :=
  "\x7b\"status\":\"OK\",\"request_id\":\"x\",\"results\":\x7b\"active\":true,\"address\":\x7b\"address1\":\"a\",\"city\":\"c\",\"postal_code\":\"p\",\"state\":\"s\"\x7d,\"cik\":\"1\",\"composite_figi\":\"f\",\"currency_name\":\"usd\",\"locale\":\"us\",\"market\":\"stocks\",\"name\":\"n\",\"phone_number\":\"ph\",\"primary_exchange\":\"xn\",\"round_lot\":100,\"share_class_figi\":\"g\",\"share_class_shares_outstanding\":1,\"sic_code\":\"3571\",\"sic_description\":\"d\",\"ticker\":\"AAPL\",\"ticker_root\":\"AAPL\",\"total_employees\":1,\"type\":\"CS\",\"weighted_shares_outstanding\":1\x7d\x7d"

/-- A gold 2xx body whose candle array is empty, so results[0].c does
not exist. -/
def gold_empty_results_body : String :=
  "\x7b\"ticker\":\"C:XAUUSD\",\"queryCount\":0,\"resultsCount\":0,\"adjusted\":true,\"results\":[],\"status\":\"OK\",\"request_id\":\"r\",\"count\":0\x7d"

/-- C2: evaluation of each adapter at a 2xx body missing the
load-bearing field.  The equity adapter returns Deserialization as the
claim says, but the gold adapter (empty results array) and the crypto
adapter (a body that decodes to an empty array yet is not the literal
two-character string) panic on the index 0 access instead of returning
a Deserialization error. -/
theorem C2_missing_load_bearing_evaluation :
    return_stock_market_cap "AAPL" ⟨200, equity_no_cap_body⟩
      = RunResult.error (Error.Deserialization "missing field market_cap" "AAPL")
    ∧ from_str_AggsTickerV2 gold_empty_results_body
      = Except.ok ⟨"C:XAUUSD", 0, 0, true, [], "OK", "r", 0⟩
    ∧ return_gold_market_cap 212582 ⟨200, gold_empty_results_body⟩ = RunResult.panicked
    ∧ (" []" : String) ≠ "[]"
    ∧ from_str_CoingeckoMarketsList " []" = Except.ok []
    ∧ return_cyrpto_market_cap "foo" ⟨200, " []"⟩ = RunResult.panicked := by
  decide

/-- The market_cap number inside the results object of a decoded equity
body, when both are present. -/
def results_market_cap_num (j : Json) : Option Rat :=
  match j with
  | .obj fs =>
    match getField fs "results" with
    | some (.obj rs) =>
      match getField rs "market_cap" with
      | some (.num q) => some q
      | _ => none
    | _ => none
  | _ => none

/-- An equity 2xx body whose results object carries market_cap and
nothing else. -/
def equity_cap_only_body : String :=
  "\x7b\"status\":\"OK\",\"request_id\":\"x\",\"results\":\x7b\"market_cap\":1\x7d\x7d"

/-- C3: claimed behaviour fails on the code.  A 2xx equity body that
does contain the load-bearing results.market_cap field but omits other
declared fields (phone_number and the rest) fails to decode: missing
non-load-bearing fields do cause a decode failure. -/
theorem C3_counterexample :
    (parseJson equity_cap_only_body).bind results_market_cap_num = some 1
    ∧ return_stock_market_cap "AAPL" ⟨200, equity_cap_only_body⟩
      = RunResult.error (Error.Deserialization "missing field active" "AAPL") := by
  decide

/-- Looking a declared name up in a JSON object is unchanged by
appending a binding for a different name. -/
theorem getField_append_single (fs : List (String × Json)) (extra : String) (v : Json)
    (name : String) (h : name ≠ extra) :
    getField (fs ++ [(extra, v)]) name = getField fs name := by
  induction fs with
  | nil =>
    have hb : (extra == name) = false := by
      simp [Ne.symm h]
    simp [getField, List.find?, hb]
  | cons hd tl ih =>
    simp only [getField, List.cons_append, List.find?] at ih ⊢
    by_cases hh : (hd.1 == name) = true
    · rw [hh]
    · rw [Bool.not_eq_true] at hh
      rw [hh]
      exact ih

/-- An element of a list differs from anything outside the list. -/
theorem mem_ne_of_not_mem {x y : String} {l : List String} (hx : x ∈ l) (hy : y ∉ l) :
    x ≠ y :=
  fun he => hy (he ▸ hx)

/-- Every JSON field name declared by some serde struct of the three
payload shapes (equity envelope and results object, gold envelope and
candle, crypto element). -/
def declared_field_names : List String :=
  ["status", "request_id", "results", "active", "address", "branding", "cik", "composite_figi", "currency_name", "description", "homepage_url", "list_date", "locale", "market", "market_cap", "name", "phone_number", "primary_exchange", "round_lot", "share_class_figi", "share_class_shares_outstanding", "sic_code", "sic_description", "ticker", "ticker_root", "total_employees", "type", "weighted_shares_outstanding", "queryCount", "resultsCount", "adjusted", "count", "T", "v", "vw", "o", "c", "h", "l", "t", "n", "id", "symbol", "image", "current_price", "market_cap_rank", "fully_diluted_valuation", "total_volume", "high_24h", "low_24h", "price_change_24h", "price_change_percentage_24h", "market_cap_change_24h", "market_cap_change_percentage_24h", "circulating_supply", "total_supply", "max_supply", "ath", "ath_change_percentage", "ath_date", "atl", "atl_change_percentage", "atl_date", "roi", "last_updated"]

/-- Splitting an Except bind that came out ok. -/
theorem except_bind_ok (x : Except String α) (k : α → Except String β) (v : β)
    (h : x >>= k = Except.ok v) : ∃ a, x = Except.ok a ∧ k a = Except.ok v := by
  cases x with
  | error e => cases h
  | ok a => exact ⟨a, rfl, h⟩

/-- A required field that decoded ok was present. -/
theorem reqField_ok_isSome {fs : List (String × Json)} {name : String}
    {d : Json → Except String α} {a : α} (h : reqField fs name d = Except.ok a) :
    (getField fs name).isSome = true := by
  cases hg : getField fs name with
  | none => rw [reqField, hg] at h; cases h
  | some j => rfl


/-- Appending an undeclared field leaves decodeTickerDetailsV3 unchanged. -/
theorem decodeTickerDetailsV3_append_unknown (fs : List (String × Json)) (extra : String) (v : Json)
    (h : extra ∉ declared_field_names) :
    decodeTickerDetailsV3 (Json.obj (fs ++ [(extra, v)])) = decodeTickerDetailsV3 (Json.obj fs) := by
  simp only [decodeTickerDetailsV3, reqField, optField,
    getField_append_single fs extra v "status" (mem_ne_of_not_mem (by decide) h),
    getField_append_single fs extra v "request_id" (mem_ne_of_not_mem (by decide) h),
    getField_append_single fs extra v "results" (mem_ne_of_not_mem (by decide) h)]


/-- Appending an undeclared field leaves decodeCompanyDetails unchanged. -/
theorem decodeCompanyDetails_append_unknown (fs : List (String × Json)) (extra : String) (v : Json)
    (h : extra ∉ declared_field_names) :
    decodeCompanyDetails (Json.obj (fs ++ [(extra, v)])) = decodeCompanyDetails (Json.obj fs) := by
  simp only [decodeCompanyDetails, reqField, optField,
    getField_append_single fs extra v "active" (mem_ne_of_not_mem (by decide) h),
    getField_append_single fs extra v "address" (mem_ne_of_not_mem (by decide) h),
    getField_append_single fs extra v "branding" (mem_ne_of_not_mem (by decide) h),
    getField_append_single fs extra v "cik" (mem_ne_of_not_mem (by decide) h),
    getField_append_single fs extra v "composite_figi" (mem_ne_of_not_mem (by decide) h),
    getField_append_single fs extra v "currency_name" (mem_ne_of_not_mem (by decide) h),
    getField_append_single fs extra v "description" (mem_ne_of_not_mem (by decide) h),
    getField_append_single fs extra v "homepage_url" (mem_ne_of_not_mem (by decide) h),
    getField_append_single fs extra v "list_date" (mem_ne_of_not_mem (by decide) h),
    getField_append_single fs extra v "locale" (mem_ne_of_not_mem (by decide) h),
    getField_append_single fs extra v "market" (mem_ne_of_not_mem (by decide) h),
    getField_append_single fs extra v "market_cap" (mem_ne_of_not_mem (by decide) h),
    getField_append_single fs extra v "name" (mem_ne_of_not_mem (by decide) h),
    getField_append_single fs extra v "phone_number" (mem_ne_of_not_mem (by decide) h),
    getField_append_single fs extra v "primary_exchange" (mem_ne_of_not_mem (by decide) h),
    getField_append_single fs extra v "round_lot" (mem_ne_of_not_mem (by decide) h),
    getField_append_single fs extra v "share_class_figi" (mem_ne_of_not_mem (by decide) h),
    getField_append_single fs extra v "share_class_shares_outstanding" (mem_ne_of_not_mem (by decide) h),
    getField_append_single fs extra v "sic_code" (mem_ne_of_not_mem (by decide) h),
    getField_append_single fs extra v "sic_description" (mem_ne_of_not_mem (by decide) h),
    getField_append_single fs extra v "ticker" (mem_ne_of_not_mem (by decide) h),
    getField_append_single fs extra v "ticker_root" (mem_ne_of_not_mem (by decide) h),
    getField_append_single fs extra v "total_employees" (mem_ne_of_not_mem (by decide) h),
    getField_append_single fs extra v "type" (mem_ne_of_not_mem (by decide) h),
    getField_append_single fs extra v "weighted_shares_outstanding" (mem_ne_of_not_mem (by decide) h)]


/-- Appending an undeclared field leaves decodeAggsTickerV2 unchanged. -/
theorem decodeAggsTickerV2_append_unknown (fs : List (String × Json)) (extra : String) (v : Json)
    (h : extra ∉ declared_field_names) :
    decodeAggsTickerV2 (Json.obj (fs ++ [(extra, v)])) = decodeAggsTickerV2 (Json.obj fs) := by
  simp only [decodeAggsTickerV2, reqField, optField,
    getField_append_single fs extra v "ticker" (mem_ne_of_not_mem (by decide) h),
    getField_append_single fs extra v "queryCount" (mem_ne_of_not_mem (by decide) h),
    getField_append_single fs extra v "resultsCount" (mem_ne_of_not_mem (by decide) h),
    getField_append_single fs extra v "adjusted" (mem_ne_of_not_mem (by decide) h),
    getField_append_single fs extra v "results" (mem_ne_of_not_mem (by decide) h),
    getField_append_single fs extra v "status" (mem_ne_of_not_mem (by decide) h),
    getField_append_single fs extra v "request_id" (mem_ne_of_not_mem (by decide) h),
    getField_append_single fs extra v "count" (mem_ne_of_not_mem (by decide) h)]


/-- Appending an undeclared field leaves decodeOHCL unchanged. -/
theorem decodeOHCL_append_unknown (fs : List (String × Json)) (extra : String) (v : Json)
    (h : extra ∉ declared_field_names) :
    decodeOHCL (Json.obj (fs ++ [(extra, v)])) = decodeOHCL (Json.obj fs) := by
  simp only [decodeOHCL, reqField, optField,
    getField_append_single fs extra v "T" (mem_ne_of_not_mem (by decide) h),
    getField_append_single fs extra v "v" (mem_ne_of_not_mem (by decide) h),
    getField_append_single fs extra v "vw" (mem_ne_of_not_mem (by decide) h),
    getField_append_single fs extra v "o" (mem_ne_of_not_mem (by decide) h),
    getField_append_single fs extra v "c" (mem_ne_of_not_mem (by decide) h),
    getField_append_single fs extra v "h" (mem_ne_of_not_mem (by decide) h),
    getField_append_single fs extra v "l" (mem_ne_of_not_mem (by decide) h),
    getField_append_single fs extra v "t" (mem_ne_of_not_mem (by decide) h),
    getField_append_single fs extra v "n" (mem_ne_of_not_mem (by decide) h)]


/-- Appending an undeclared field leaves decodeCoingeckoMarketsV2 unchanged. -/
theorem decodeCoingeckoMarketsV2_append_unknown (fs : List (String × Json)) (extra : String) (v : Json)
    (h : extra ∉ declared_field_names) :
    decodeCoingeckoMarketsV2 (Json.obj (fs ++ [(extra, v)])) = decodeCoingeckoMarketsV2 (Json.obj fs) := by
  simp only [decodeCoingeckoMarketsV2, reqField, optField,
    getField_append_single fs extra v "id" (mem_ne_of_not_mem (by decide) h),
    getField_append_single fs extra v "symbol" (mem_ne_of_not_mem (by decide) h),
    getField_append_single fs extra v "name" (mem_ne_of_not_mem (by decide) h),
    getField_append_single fs extra v "image" (mem_ne_of_not_mem (by decide) h),
    getField_append_single fs extra v "current_price" (mem_ne_of_not_mem (by decide) h),
    getField_append_single fs extra v "market_cap" (mem_ne_of_not_mem (by decide) h),
    getField_append_single fs extra v "market_cap_rank" (mem_ne_of_not_mem (by decide) h),
    getField_append_single fs extra v "fully_diluted_valuation" (mem_ne_of_not_mem (by decide) h),
    getField_append_single fs extra v "total_volume" (mem_ne_of_not_mem (by decide) h),
    getField_append_single fs extra v "high_24h" (mem_ne_of_not_mem (by decide) h),
    getField_append_single fs extra v "low_24h" (mem_ne_of_not_mem (by decide) h),
    getField_append_single fs extra v "price_change_24h" (mem_ne_of_not_mem (by decide) h),
    getField_append_single fs extra v "price_change_percentage_24h" (mem_ne_of_not_mem (by decide) h),
    getField_append_single fs extra v "market_cap_change_24h" (mem_ne_of_not_mem (by decide) h),
    getField_append_single fs extra v "market_cap_change_percentage_24h" (mem_ne_of_not_mem (by decide) h),
    getField_append_single fs extra v "circulating_supply" (mem_ne_of_not_mem (by decide) h),
    getField_append_single fs extra v "total_supply" (mem_ne_of_not_mem (by decide) h),
    getField_append_single fs extra v "max_supply" (mem_ne_of_not_mem (by decide) h),
    getField_append_single fs extra v "ath" (mem_ne_of_not_mem (by decide) h),
    getField_append_single fs extra v "ath_change_percentage" (mem_ne_of_not_mem (by decide) h),
    getField_append_single fs extra v "ath_date" (mem_ne_of_not_mem (by decide) h),
    getField_append_single fs extra v "atl" (mem_ne_of_not_mem (by decide) h),
    getField_append_single fs extra v "atl_change_percentage" (mem_ne_of_not_mem (by decide) h),
    getField_append_single fs extra v "atl_date" (mem_ne_of_not_mem (by decide) h),
    getField_append_single fs extra v "roi" (mem_ne_of_not_mem (by decide) h),
    getField_append_single fs extra v "last_updated" (mem_ne_of_not_mem (by decide) h)]


/-- Whenever decodeTickerDetailsV3 succeeds, every declared non-Option field was present. -/
theorem decodeTickerDetailsV3_ok_required : ∀ (fs : List (String × Json)) (v : TickerDetailsV3),
    decodeTickerDetailsV3 (Json.obj fs) = Except.ok v →
    (getField fs "status").isSome = true
    ∧ (getField fs "request_id").isSome = true
    ∧ (getField fs "results").isSome = true := by
  intro fs v h
  simp only [decodeTickerDetailsV3] at h
  obtain ⟨a1, h1, h⟩ := except_bind_ok _ _ _ h
  obtain ⟨a2, h2, h⟩ := except_bind_ok _ _ _ h
  obtain ⟨a3, h3, h⟩ := except_bind_ok _ _ _ h
  exact ⟨reqField_ok_isSome h1, reqField_ok_isSome h2, reqField_ok_isSome h3⟩


/-- Whenever decodeCompanyDetails succeeds, every declared non-Option field was present. -/
theorem decodeCompanyDetails_ok_required : ∀ (fs : List (String × Json)) (v : CompanyDetails),
    decodeCompanyDetails (Json.obj fs) = Except.ok v →
    (getField fs "active").isSome = true
    ∧ (getField fs "address").isSome = true
    ∧ (getField fs "cik").isSome = true
    ∧ (getField fs "composite_figi").isSome = true
    ∧ (getField fs "currency_name").isSome = true
    ∧ (getField fs "locale").isSome = true
    ∧ (getField fs "market").isSome = true
    ∧ (getField fs "market_cap").isSome = true
    ∧ (getField fs "name").isSome = true
    ∧ (getField fs "phone_number").isSome = true
    ∧ (getField fs "primary_exchange").isSome = true
    ∧ (getField fs "round_lot").isSome = true
    ∧ (getField fs "share_class_figi").isSome = true
    ∧ (getField fs "share_class_shares_outstanding").isSome = true
    ∧ (getField fs "sic_code").isSome = true
    ∧ (getField fs "sic_description").isSome = true
    ∧ (getField fs "ticker").isSome = true
    ∧ (getField fs "ticker_root").isSome = true
    ∧ (getField fs "total_employees").isSome = true
    ∧ (getField fs "type").isSome = true
    ∧ (getField fs "weighted_shares_outstanding").isSome = true := by
  intro fs v h
  simp only [decodeCompanyDetails] at h
  obtain ⟨a1, h1, h⟩ := except_bind_ok _ _ _ h
  obtain ⟨a2, h2, h⟩ := except_bind_ok _ _ _ h
  obtain ⟨a3, _, h⟩ := except_bind_ok _ _ _ h
  obtain ⟨a4, h4, h⟩ := except_bind_ok _ _ _ h
  obtain ⟨a5, h5, h⟩ := except_bind_ok _ _ _ h
  obtain ⟨a6, h6, h⟩ := except_bind_ok _ _ _ h
  obtain ⟨a7, _, h⟩ := except_bind_ok _ _ _ h
  obtain ⟨a8, _, h⟩ := except_bind_ok _ _ _ h
  obtain ⟨a9, _, h⟩ := except_bind_ok _ _ _ h
  obtain ⟨a10, h10, h⟩ := except_bind_ok _ _ _ h
  obtain ⟨a11, h11, h⟩ := except_bind_ok _ _ _ h
  obtain ⟨a12, h12, h⟩ := except_bind_ok _ _ _ h
  obtain ⟨a13, h13, h⟩ := except_bind_ok _ _ _ h
  obtain ⟨a14, h14, h⟩ := except_bind_ok _ _ _ h
  obtain ⟨a15, h15, h⟩ := except_bind_ok _ _ _ h
  obtain ⟨a16, h16, h⟩ := except_bind_ok _ _ _ h
  obtain ⟨a17, h17, h⟩ := except_bind_ok _ _ _ h
  obtain ⟨a18, h18, h⟩ := except_bind_ok _ _ _ h
  obtain ⟨a19, h19, h⟩ := except_bind_ok _ _ _ h
  obtain ⟨a20, h20, h⟩ := except_bind_ok _ _ _ h
  obtain ⟨a21, h21, h⟩ := except_bind_ok _ _ _ h
  obtain ⟨a22, h22, h⟩ := except_bind_ok _ _ _ h
  obtain ⟨a23, h23, h⟩ := except_bind_ok _ _ _ h
  obtain ⟨a24, h24, h⟩ := except_bind_ok _ _ _ h
  obtain ⟨a25, h25, h⟩ := except_bind_ok _ _ _ h
  exact ⟨reqField_ok_isSome h1, reqField_ok_isSome h2, reqField_ok_isSome h4, reqField_ok_isSome h5, reqField_ok_isSome h6, reqField_ok_isSome h10, reqField_ok_isSome h11, reqField_ok_isSome h12, reqField_ok_isSome h13, reqField_ok_isSome h14, reqField_ok_isSome h15, reqField_ok_isSome h16, reqField_ok_isSome h17, reqField_ok_isSome h18, reqField_ok_isSome h19, reqField_ok_isSome h20, reqField_ok_isSome h21, reqField_ok_isSome h22, reqField_ok_isSome h23, reqField_ok_isSome h24, reqField_ok_isSome h25⟩


/-- Whenever decodeAggsTickerV2 succeeds, every declared non-Option field was present. -/
theorem decodeAggsTickerV2_ok_required : ∀ (fs : List (String × Json)) (v : AggsTickerV2),
    decodeAggsTickerV2 (Json.obj fs) = Except.ok v →
    (getField fs "ticker").isSome = true
    ∧ (getField fs "queryCount").isSome = true
    ∧ (getField fs "resultsCount").isSome = true
    ∧ (getField fs "adjusted").isSome = true
    ∧ (getField fs "results").isSome = true
    ∧ (getField fs "status").isSome = true
    ∧ (getField fs "request_id").isSome = true
    ∧ (getField fs "count").isSome = true := by
  intro fs v h
  simp only [decodeAggsTickerV2] at h
  obtain ⟨a1, h1, h⟩ := except_bind_ok _ _ _ h
  obtain ⟨a2, h2, h⟩ := except_bind_ok _ _ _ h
  obtain ⟨a3, h3, h⟩ := except_bind_ok _ _ _ h
  obtain ⟨a4, h4, h⟩ := except_bind_ok _ _ _ h
  obtain ⟨a5, h5, h⟩ := except_bind_ok _ _ _ h
  obtain ⟨a6, h6, h⟩ := except_bind_ok _ _ _ h
  obtain ⟨a7, h7, h⟩ := except_bind_ok _ _ _ h
  obtain ⟨a8, h8, h⟩ := except_bind_ok _ _ _ h
  exact ⟨reqField_ok_isSome h1, reqField_ok_isSome h2, reqField_ok_isSome h3, reqField_ok_isSome h4, reqField_ok_isSome h5, reqField_ok_isSome h6, reqField_ok_isSome h7, reqField_ok_isSome h8⟩


/-- Whenever decodeOHCL succeeds, every declared non-Option field was present. -/
theorem decodeOHCL_ok_required : ∀ (fs : List (String × Json)) (v : OHCL),
    decodeOHCL (Json.obj fs) = Except.ok v →
    (getField fs "T").isSome = true
    ∧ (getField fs "v").isSome = true
    ∧ (getField fs "vw").isSome = true
    ∧ (getField fs "o").isSome = true
    ∧ (getField fs "c").isSome = true
    ∧ (getField fs "h").isSome = true
    ∧ (getField fs "l").isSome = true
    ∧ (getField fs "t").isSome = true
    ∧ (getField fs "n").isSome = true := by
  intro fs v h
  simp only [decodeOHCL] at h
  obtain ⟨a1, h1, h⟩ := except_bind_ok _ _ _ h
  obtain ⟨a2, h2, h⟩ := except_bind_ok _ _ _ h
  obtain ⟨a3, h3, h⟩ := except_bind_ok _ _ _ h
  obtain ⟨a4, h4, h⟩ := except_bind_ok _ _ _ h
  obtain ⟨a5, h5, h⟩ := except_bind_ok _ _ _ h
  obtain ⟨a6, h6, h⟩ := except_bind_ok _ _ _ h
  obtain ⟨a7, h7, h⟩ := except_bind_ok _ _ _ h
  obtain ⟨a8, h8, h⟩ := except_bind_ok _ _ _ h
  obtain ⟨a9, h9, h⟩ := except_bind_ok _ _ _ h
  exact ⟨reqField_ok_isSome h1, reqField_ok_isSome h2, reqField_ok_isSome h3, reqField_ok_isSome h4, reqField_ok_isSome h5, reqField_ok_isSome h6, reqField_ok_isSome h7, reqField_ok_isSome h8, reqField_ok_isSome h9⟩


/-- Whenever decodeCoingeckoMarketsV2 succeeds, every declared non-Option field was present. -/
theorem decodeCoingeckoMarketsV2_ok_required : ∀ (fs : List (String × Json)) (v : CoingeckoMarketsV2),
    decodeCoingeckoMarketsV2 (Json.obj fs) = Except.ok v →
    (getField fs "id").isSome = true
    ∧ (getField fs "symbol").isSome = true
    ∧ (getField fs "name").isSome = true
    ∧ (getField fs "image").isSome = true
    ∧ (getField fs "current_price").isSome = true
    ∧ (getField fs "market_cap").isSome = true
    ∧ (getField fs "market_cap_rank").isSome = true
    ∧ (getField fs "fully_diluted_valuation").isSome = true
    ∧ (getField fs "total_volume").isSome = true
    ∧ (getField fs "high_24h").isSome = true
    ∧ (getField fs "low_24h").isSome = true
    ∧ (getField fs "price_change_24h").isSome = true
    ∧ (getField fs "price_change_percentage_24h").isSome = true
    ∧ (getField fs "market_cap_change_24h").isSome = true
    ∧ (getField fs "market_cap_change_percentage_24h").isSome = true
    ∧ (getField fs "circulating_supply").isSome = true
    ∧ (getField fs "total_supply").isSome = true
    ∧ (getField fs "ath").isSome = true
    ∧ (getField fs "ath_change_percentage").isSome = true
    ∧ (getField fs "ath_date").isSome = true
    ∧ (getField fs "atl").isSome = true
    ∧ (getField fs "atl_change_percentage").isSome = true
    ∧ (getField fs "atl_date").isSome = true
    ∧ (getField fs "last_updated").isSome = true := by
  intro fs v h
  simp only [decodeCoingeckoMarketsV2] at h
  obtain ⟨a1, h1, h⟩ := except_bind_ok _ _ _ h
  obtain ⟨a2, h2, h⟩ := except_bind_ok _ _ _ h
  obtain ⟨a3, h3, h⟩ := except_bind_ok _ _ _ h
  obtain ⟨a4, h4, h⟩ := except_bind_ok _ _ _ h
  obtain ⟨a5, h5, h⟩ := except_bind_ok _ _ _ h
  obtain ⟨a6, h6, h⟩ := except_bind_ok _ _ _ h
  obtain ⟨a7, h7, h⟩ := except_bind_ok _ _ _ h
  obtain ⟨a8, h8, h⟩ := except_bind_ok _ _ _ h
  obtain ⟨a9, h9, h⟩ := except_bind_ok _ _ _ h
  obtain ⟨a10, h10, h⟩ := except_bind_ok _ _ _ h
  obtain ⟨a11, h11, h⟩ := except_bind_ok _ _ _ h
  obtain ⟨a12, h12, h⟩ := except_bind_ok _ _ _ h
  obtain ⟨a13, h13, h⟩ := except_bind_ok _ _ _ h
  obtain ⟨a14, h14, h⟩ := except_bind_ok _ _ _ h
  obtain ⟨a15, h15, h⟩ := except_bind_ok _ _ _ h
  obtain ⟨a16, h16, h⟩ := except_bind_ok _ _ _ h
  obtain ⟨a17, h17, h⟩ := except_bind_ok _ _ _ h
  obtain ⟨a18, _, h⟩ := except_bind_ok _ _ _ h
  obtain ⟨a19, h19, h⟩ := except_bind_ok _ _ _ h
  obtain ⟨a20, h20, h⟩ := except_bind_ok _ _ _ h
  obtain ⟨a21, h21, h⟩ := except_bind_ok _ _ _ h
  obtain ⟨a22, h22, h⟩ := except_bind_ok _ _ _ h
  obtain ⟨a23, h23, h⟩ := except_bind_ok _ _ _ h
  obtain ⟨a24, h24, h⟩ := except_bind_ok _ _ _ h
  obtain ⟨a25, _, h⟩ := except_bind_ok _ _ _ h
  obtain ⟨a26, h26, h⟩ := except_bind_ok _ _ _ h
  exact ⟨reqField_ok_isSome h1, reqField_ok_isSome h2, reqField_ok_isSome h3, reqField_ok_isSome h4, reqField_ok_isSome h5, reqField_ok_isSome h6, reqField_ok_isSome h7, reqField_ok_isSome h8, reqField_ok_isSome h9, reqField_ok_isSome h10, reqField_ok_isSome h11, reqField_ok_isSome h12, reqField_ok_isSome h13, reqField_ok_isSome h14, reqField_ok_isSome h15, reqField_ok_isSome h16, reqField_ok_isSome h17, reqField_ok_isSome h19, reqField_ok_isSome h20, reqField_ok_isSome h21, reqField_ok_isSome h22, reqField_ok_isSome h23, reqField_ok_isSome h24, reqField_ok_isSome h26⟩

/-- A mixed-case identifier body is not needed here: concrete decodable
objects carrying every required field and none of the Option fields. -/
def ohcl_required_only : List (String × Json) :=
  [("T", Json.str "C:XAUUSD"), ("v", Json.num 1), ("vw", Json.num 1), ("o", Json.num 1),
    ("c", Json.num 2), ("h", Json.num 1), ("l", Json.num 1), ("t", Json.num 1), ("n", Json.num 1)]

/-- An equity results object carrying every required field and none of
the four Option fields. -/
def equity_results_required_only : List (String × Json) :=
  [("active", Json.bool true),
    ("address", Json.obj [("address1", Json.str "a"), ("city", Json.str "c"),
      ("postal_code", Json.str "p"), ("state", Json.str "s")]),
    ("cik", Json.str "1"), ("composite_figi", Json.str "f"), ("currency_name", Json.str "usd"),
    ("locale", Json.str "us"), ("market", Json.str "stocks"), ("market_cap", Json.num 1),
    ("name", Json.str "n"), ("phone_number", Json.str "ph"), ("primary_exchange", Json.str "xn"),
    ("round_lot", Json.num 100), ("share_class_figi", Json.str "g"),
    ("share_class_shares_outstanding", Json.num 1), ("sic_code", Json.str "3571"),
    ("sic_description", Json.str "d"), ("ticker", Json.str "AAPL"),
    ("ticker_root", Json.str "AAPL"), ("total_employees", Json.num 1), ("type", Json.str "CS"),
    ("weighted_shares_outstanding", Json.num 1)]

/-- An equity envelope around the optional-free results object. -/
def ticker_details_required_only : List (String × Json) :=
  [("status", Json.str "OK"), ("request_id", Json.str "x"),
    ("results", Json.obj equity_results_required_only)]

/-- A crypto markets element carrying every required field and neither
max_supply nor roi. -/
def crypto_element_required_only : List (String × Json) :=
  [("id", Json.str "ethereum"), ("symbol", Json.str "eth"), ("name", Json.str "e"),
    ("image", Json.str "i"), ("current_price", Json.num 1), ("market_cap", Json.num 2),
    ("market_cap_rank", Json.num 1), ("fully_diluted_valuation", Json.num 1),
    ("total_volume", Json.num 1), ("high_24h", Json.num 1), ("low_24h", Json.num 1),
    ("price_change_24h", Json.num 1), ("price_change_percentage_24h", Json.num 1),
    ("market_cap_change_24h", Json.num 1), ("market_cap_change_percentage_24h", Json.num 1),
    ("circulating_supply", Json.num 1), ("total_supply", Json.num 1), ("ath", Json.num 1),
    ("ath_change_percentage", Json.num 1), ("ath_date", Json.str "d"), ("atl", Json.num 1),
    ("atl_change_percentage", Json.num 1), ("atl_date", Json.str "d"),
    ("last_updated", Json.str "d")]

/-- C3 (amended): unknown extra fields never cause a decode failure —
appending a field whose name is not among the declared names leaves
every payload decoder (equity envelope and its results object, gold
envelope and its candle objects, crypto array elements) unchanged — but
the load-bearing field is not the only requirement: whenever any of
these decoders succeeds, every one of its declared non-Option fields
was present, so a 2xx body with the load-bearing field but another
declared field absent fails with Deserialization; only the Option
fields (equity branding, description, homepage_url, list_date; crypto
max_supply, roi) may be absent, and bodies with all required fields and
no optional ones still decode. -/
theorem C3_amended_unknown_tolerated_declared_required :
    (∀ (fs : List (String × Json)) (extra : String) (v : Json),
        extra ∉ declared_field_names →
        decodeTickerDetailsV3 (Json.obj (fs ++ [(extra, v)])) = decodeTickerDetailsV3 (Json.obj fs)
        ∧ decodeCompanyDetails (Json.obj (fs ++ [(extra, v)])) = decodeCompanyDetails (Json.obj fs)
        ∧ decodeAggsTickerV2 (Json.obj (fs ++ [(extra, v)])) = decodeAggsTickerV2 (Json.obj fs)
        ∧ decodeOHCL (Json.obj (fs ++ [(extra, v)])) = decodeOHCL (Json.obj fs)
        ∧ decodeCoingeckoMarketsV2 (Json.obj (fs ++ [(extra, v)]))
          = decodeCoingeckoMarketsV2 (Json.obj fs))
    ∧ (∀ (fs : List (String × Json)) (v : TickerDetailsV3), decodeTickerDetailsV3 (Json.obj fs) = Except.ok v →
        (getField fs "status").isSome = true
        ∧ (getField fs "request_id").isSome = true
        ∧ (getField fs "results").isSome = true)
    ∧ (∀ (fs : List (String × Json)) (v : CompanyDetails), decodeCompanyDetails (Json.obj fs) = Except.ok v →
        (getField fs "active").isSome = true
        ∧ (getField fs "address").isSome = true
        ∧ (getField fs "cik").isSome = true
        ∧ (getField fs "composite_figi").isSome = true
        ∧ (getField fs "currency_name").isSome = true
        ∧ (getField fs "locale").isSome = true
        ∧ (getField fs "market").isSome = true
        ∧ (getField fs "market_cap").isSome = true
        ∧ (getField fs "name").isSome = true
        ∧ (getField fs "phone_number").isSome = true
        ∧ (getField fs "primary_exchange").isSome = true
        ∧ (getField fs "round_lot").isSome = true
        ∧ (getField fs "share_class_figi").isSome = true
        ∧ (getField fs "share_class_shares_outstanding").isSome = true
        ∧ (getField fs "sic_code").isSome = true
        ∧ (getField fs "sic_description").isSome = true
        ∧ (getField fs "ticker").isSome = true
        ∧ (getField fs "ticker_root").isSome = true
        ∧ (getField fs "total_employees").isSome = true
        ∧ (getField fs "type").isSome = true
        ∧ (getField fs "weighted_shares_outstanding").isSome = true)
    ∧ (∀ (fs : List (String × Json)) (v : AggsTickerV2), decodeAggsTickerV2 (Json.obj fs) = Except.ok v →
        (getField fs "ticker").isSome = true
        ∧ (getField fs "queryCount").isSome = true
        ∧ (getField fs "resultsCount").isSome = true
        ∧ (getField fs "adjusted").isSome = true
        ∧ (getField fs "results").isSome = true
        ∧ (getField fs "status").isSome = true
        ∧ (getField fs "request_id").isSome = true
        ∧ (getField fs "count").isSome = true)
    ∧ (∀ (fs : List (String × Json)) (v : OHCL), decodeOHCL (Json.obj fs) = Except.ok v →
        (getField fs "T").isSome = true
        ∧ (getField fs "v").isSome = true
        ∧ (getField fs "vw").isSome = true
        ∧ (getField fs "o").isSome = true
        ∧ (getField fs "c").isSome = true
        ∧ (getField fs "h").isSome = true
        ∧ (getField fs "l").isSome = true
        ∧ (getField fs "t").isSome = true
        ∧ (getField fs "n").isSome = true)
    ∧ (∀ (fs : List (String × Json)) (v : CoingeckoMarketsV2), decodeCoingeckoMarketsV2 (Json.obj fs) = Except.ok v →
        (getField fs "id").isSome = true
        ∧ (getField fs "symbol").isSome = true
        ∧ (getField fs "name").isSome = true
        ∧ (getField fs "image").isSome = true
        ∧ (getField fs "current_price").isSome = true
        ∧ (getField fs "market_cap").isSome = true
        ∧ (getField fs "market_cap_rank").isSome = true
        ∧ (getField fs "fully_diluted_valuation").isSome = true
        ∧ (getField fs "total_volume").isSome = true
        ∧ (getField fs "high_24h").isSome = true
        ∧ (getField fs "low_24h").isSome = true
        ∧ (getField fs "price_change_24h").isSome = true
        ∧ (getField fs "price_change_percentage_24h").isSome = true
        ∧ (getField fs "market_cap_change_24h").isSome = true
        ∧ (getField fs "market_cap_change_percentage_24h").isSome = true
        ∧ (getField fs "circulating_supply").isSome = true
        ∧ (getField fs "total_supply").isSome = true
        ∧ (getField fs "ath").isSome = true
        ∧ (getField fs "ath_change_percentage").isSome = true
        ∧ (getField fs "ath_date").isSome = true
        ∧ (getField fs "atl").isSome = true
        ∧ (getField fs "atl_change_percentage").isSome = true
        ∧ (getField fs "atl_date").isSome = true
        ∧ (getField fs "last_updated").isSome = true)
    ∧ decodeTickerDetailsV3 (Json.obj ticker_details_required_only)
      = Except.ok ⟨"OK", "x", ⟨true, ⟨"a", "c", "p", "s"⟩, none, "1", "f", "usd", none, none,
          none, "us", "stocks", 1, "n", "ph", "xn", 100, "g", 1, "3571", "d", "AAPL", "AAPL",
          1, "CS", 1⟩⟩
    ∧ decodeOHCL (Json.obj ohcl_required_only) = Except.ok ⟨"C:XAUUSD", 1, 1, 1, 2, 1, 1, 1, 1⟩
    ∧ decodeCoingeckoMarketsV2 (Json.obj crypto_element_required_only)
      = Except.ok ⟨"ethereum", "eth", "e", "i", 1, 2, 1, 1, 1, 1, 1, 1, 1, 1, 1, 1, 1, none,
          1, 1, "d", 1, 1, "d", none, "d"⟩ :=
  ⟨fun fs extra v h =>
      ⟨decodeTickerDetailsV3_append_unknown fs extra v h,
        decodeCompanyDetails_append_unknown fs extra v h,
        decodeAggsTickerV2_append_unknown fs extra v h,
        decodeOHCL_append_unknown fs extra v h,
        decodeCoingeckoMarketsV2_append_unknown fs extra v h⟩,
    decodeTickerDetailsV3_ok_required, decodeCompanyDetails_ok_required,
    decodeAggsTickerV2_ok_required, decodeOHCL_ok_required,
    decodeCoingeckoMarketsV2_ok_required, by decide, by decide, by decide⟩

/-- C3 (witness): the amended theorem applied to a one-field object with
an appended unknown field, and to the concrete optional-free candle. -/
theorem C3_amended_witness :
    decodeOHCL (Json.obj ([("T", Json.str "x")] ++ [("zzz", Json.null)]))
      = decodeOHCL (Json.obj [("T", Json.str "x")])
    ∧ (getField ohcl_required_only "c").isSome = true :=
  ⟨(C3_amended_unknown_tolerated_declared_required.1 [("T", Json.str "x")] "zzz" Json.null
      (by decide)).2.2.2.1,
    (C3_amended_unknown_tolerated_declared_required.2.2.2.2.1 ohcl_required_only
      ⟨"C:XAUUSD", 1, 1, 1, 2, 1, 1, 1, 1⟩ (by decide)).2.2.2.2.1⟩

/-- C4: claimed behaviour fails on the code.  The empty identifier
equals its own uppercasing, so the second arm classifies it as Stock,
not Unknown. -/
theorem C4_counterexample :
    identify_market_cap_type "" = MarketCapType.Stock
    ∧ MarketCapType.Stock ≠ MarketCapType.Unknown := by
  decide

/-- C4 (amended): ties among the classification arms are resolved in the
listed order with Gold first (gold also satisfies the lowercase-equality
rule yet classifies as Gold), but the empty string satisfies the
uppercase-equality rule vacuously and therefore classifies as Stock,
not Unknown. -/
theorem C4_amended_tie_order_and_empty_string :
    identify_market_cap_type "" = MarketCapType.Stock
    ∧ identify_market_cap_type "gold" = MarketCapType.Gold
    ∧ identify_market_cap_type "Gold" = MarketCapType.Gold
    ∧ rust_to_lowercase "gold" = "gold"
    ∧ rust_to_uppercase "" = "" := by
  decide

/-- C5: claimed behaviour fails on the code.  With POLYGON_KEY present
but bound to the empty string, the loader succeeds and returns the empty
key instead of an EnvMissing-style error naming POLYGON_KEY. -/
theorem C5_counterexample :
    get_required_envs [("POLYGON_KEY", ""), ("COINGECKO_KEY", "k")]
      = Except.ok ⟨"k", ""⟩
    ∧ (Except.ok (⟨"k", ""⟩ : ApiKeys) : Except Error ApiKeys)
      ≠ Except.error (Error.EnvVarError "POLYGON_KEY") := by
  decide

/-- C5 (amended): the loader returns both keys exactly when both
variables are present in the environment, whatever their values (an
empty string included); an absent POLYGON_KEY is reported first, an
absent COINGECKO_KEY is reported only when POLYGON_KEY is present, so
with both missing the error deterministically names POLYGON_KEY. -/
theorem C5_amended_present_iff_ok :
    ∀ env : List (String × String),
    ((∃ keys, get_required_envs env = Except.ok keys) ↔
      ((env_var env "POLYGON_KEY").isSome ∧ (env_var env "COINGECKO_KEY").isSome))
    ∧ (env_var env "POLYGON_KEY" = none →
        get_required_envs env = Except.error (Error.EnvVarError "POLYGON_KEY"))
    ∧ (∀ p, env_var env "POLYGON_KEY" = some p → env_var env "COINGECKO_KEY" = none →
        get_required_envs env = Except.error (Error.EnvVarError "COINGECKO_KEY"))
    ∧ (∀ p c, env_var env "POLYGON_KEY" = some p → env_var env "COINGECKO_KEY" = some c →
        get_required_envs env = Except.ok ⟨c, p⟩) := by
  intro env
  cases hp : env_var env "POLYGON_KEY" with
  | none => simp [get_required_envs, hp]
  | some p =>
    cases hc : env_var env "COINGECKO_KEY" with
    | none => simp [get_required_envs, hp, hc]
    | some c => simp [get_required_envs, hp, hc]

/-- C5 (witness): the amended theorem applied to three concrete
environments. -/
theorem C5_amended_witness :
    get_required_envs [] = Except.error (Error.EnvVarError "POLYGON_KEY")
    ∧ get_required_envs [("POLYGON_KEY", "p")]
      = Except.error (Error.EnvVarError "COINGECKO_KEY")
    ∧ get_required_envs [("POLYGON_KEY", "p"), ("COINGECKO_KEY", "c")]
      = Except.ok ⟨"c", "p"⟩ :=
  ⟨(C5_amended_present_iff_ok []).2.1 rfl,
    (C5_amended_present_iff_ok [("POLYGON_KEY", "p")]).2.2.1 "p" rfl rfl,
    (C5_amended_present_iff_ok [("POLYGON_KEY", "p"), ("COINGECKO_KEY", "c")]).2.2.2
      "p" "c" rfl rfl⟩

/-- C6: for positive caps the selected ratio is min over max, lies in
(0, 1], the numerator asset is the strictly smaller one, and a tie takes
the else branch, making asset b the numerator and asset a the
denominator. -/
theorem C6_ratio_is_min_over_max :
    ∀ (ma mb : Rat) (a b : String), 0 < ma → 0 < mb →
    (select_ratio ma a mb b).ratio = min ma mb / max ma mb
    ∧ 0 < (select_ratio ma a mb b).ratio
    ∧ (select_ratio ma a mb b).ratio ≤ 1
    ∧ (ma < mb → (select_ratio ma a mb b).numerator_asset = a
        ∧ (select_ratio ma a mb b).denominator_asset = b
        ∧ (select_ratio ma a mb b).numerator_value = ma)
    ∧ (mb < ma → (select_ratio ma a mb b).numerator_asset = b
        ∧ (select_ratio ma a mb b).denominator_asset = a
        ∧ (select_ratio ma a mb b).numerator_value = mb)
    ∧ (ma = mb → (select_ratio ma a mb b).numerator_asset = b
        ∧ (select_ratio ma a mb b).denominator_asset = a) := by
  intro ma mb a b hma hmb
  by_cases h : ma < mb
  · have hsel : select_ratio ma a mb b = ⟨ma / mb, a, b, ma, mb⟩ := by
      rw [select_ratio, if_pos h]
    rw [hsel]
    exact ⟨by rw [min_eq_left h.le, max_eq_right h.le], div_pos hma hmb,
      (div_le_one hmb).mpr h.le, fun _ => ⟨rfl, rfl, rfl⟩,
      fun hba => absurd h (not_lt.mpr hba.le), fun he => absurd he (ne_of_lt h)⟩
  · have hle : mb ≤ ma := not_lt.mp h
    have hsel : select_ratio ma a mb b = ⟨mb / ma, b, a, mb, ma⟩ := by
      rw [select_ratio, if_neg h]
    rw [hsel]
    exact ⟨by rw [min_eq_right hle, max_eq_left hle], div_pos hmb hma,
      (div_le_one hma).mpr hle, fun hab => absurd hab h,
      fun _ => ⟨rfl, rfl, rfl⟩, fun _ => ⟨rfl, rfl⟩⟩

/-- C6 (witness): the theorem applied at caps 1 and 2. -/
theorem C6_witness :
    (select_ratio 1 "x" 2 "y").ratio = min (1 : Rat) 2 / max 1 2
    ∧ (select_ratio 1 "x" 2 "y").numerator_asset = "x" :=
  ⟨(C6_ratio_is_min_over_max 1 2 "x" "y" (by norm_num) (by norm_num)).1,
    ((C6_ratio_is_min_over_max 1 2 "x" "y" (by norm_num) (by norm_num)).2.2.2.1
      (by norm_num)).1⟩

/-- C7: on ratios in [0, 1] the gauge percentage is the round (half away
from zero) of ratio times 100, the plain and JSON percentage is its
floor, and the two differ by at most one. -/
theorem C7_gauge_round_main_floor :
    ∀ r : Rat, 0 ≤ r → r ≤ 1 →
    (gauge_percentage r : Int) = rust_round (r * 100)
    ∧ (main_percentage r : Int) = ⌊r * 100⌋
    ∧ main_percentage r ≤ gauge_percentage r
    ∧ gauge_percentage r ≤ main_percentage r + 1 := by
  intro r h0 h1
  have hx : (0 : Rat) ≤ r * 100 := by positivity
  have hr : rust_round (r * 100) = ⌊r * 100 + 1 / 2⌋ := by
    rw [rust_round, if_pos hx]
  have hf0 : (0 : Int) ≤ ⌊r * 100⌋ := Int.floor_nonneg.mpr hx
  have hg0 : (0 : Int) ≤ ⌊r * 100 + 1 / 2⌋ := Int.floor_nonneg.mpr (by linarith)
  have hmono : ⌊r * 100⌋ ≤ ⌊r * 100 + 1 / 2⌋ := Int.floor_le_floor (by linarith)
  have hup : ⌊r * 100 + 1 / 2⌋ ≤ ⌊r * 100⌋ + 1 := by
    have h2 : ⌊r * 100 + 1 / 2⌋ ≤ ⌊r * 100 + 1⌋ := Int.floor_le_floor (by linarith)
    calc ⌊r * 100 + 1 / 2⌋ ≤ ⌊r * 100 + 1⌋ := h2
      _ = ⌊r * 100⌋ + 1 := by
        rw [show ((1 : Rat)) = ((1 : Int) : Rat) by norm_num, Int.floor_add_int]
  have hgv : gauge_percentage r = (⌊r * 100 + 1 / 2⌋).toNat := by
    rw [gauge_percentage, hr]
  have hmv : main_percentage r = (⌊r * 100⌋).toNat := rfl
  refine ⟨?_, ?_, ?_, ?_⟩
  · rw [hgv, hr, Int.toNat_of_nonneg hg0]
  · rw [hmv, Int.toNat_of_nonneg hf0]
  · rw [hgv, hmv]; omega
  · rw [hgv, hmv]; omega

/-- C7 (witness): at ratio one fortieth, the gauge percentage is 3 and
the plain percentage 2: they differ by exactly one. -/
theorem C7_witness :
    main_percentage (1 / 40) ≤ gauge_percentage (1 / 40)
    ∧ gauge_percentage (1 / 40) ≤ main_percentage (1 / 40) + 1 :=
  ⟨(C7_gauge_round_main_floor (1 / 40) (by norm_num) (by norm_num)).2.2.1,
    (C7_gauge_round_main_floor (1 / 40) (by norm_num) (by norm_num)).2.2.2⟩

/-- C8: claimed behaviour fails on the code.  With caps 1 and 2 the
swapped invocation prints the very same plain line — the ordering is
normalized, so the numerator and denominator labels are unchanged, not
swapped. -/
theorem C8_counterexample :
    plain_output 1 "x" 2 "y" = "x y 50"
    ∧ plain_output 2 "y" 1 "x" = "x y 50"
    ∧ ("x y 50" : String) ≠ "y x 50" := by
  decide

/-- C8 (amended): swapping the two assets preserves the ratio, the
truncated percentage, and the gauge line; with unequal caps the whole
selection (labels included) is unchanged rather than swapped, and only
on a tie do the numerator and denominator labels swap. -/
theorem C8_amended_swap_behaviour :
    ∀ (ma mb : Rat) (a b : String),
    (select_ratio mb b ma a).ratio = (select_ratio ma a mb b).ratio
    ∧ main_percentage (select_ratio mb b ma a).ratio
      = main_percentage (select_ratio ma a mb b).ratio
    ∧ (ma ≠ mb → select_ratio mb b ma a = select_ratio ma a mb b)
    ∧ (ma = mb →
        (select_ratio ma a mb b).numerator_asset = b
        ∧ (select_ratio ma a mb b).denominator_asset = a
        ∧ (select_ratio mb b ma a).numerator_asset = a
        ∧ (select_ratio mb b ma a).denominator_asset = b)
    ∧ (∀ total_length, create_ratio_gauge (select_ratio mb b ma a).ratio total_length
        = create_ratio_gauge (select_ratio ma a mb b).ratio total_length) := by
  intro ma mb a b
  have hlt : ∀ (x y : Rat) (s t : String), x < y →
      select_ratio x s y t = ⟨x / y, s, t, x, y⟩ :=
    fun x y s t hxy => by rw [select_ratio, if_pos hxy]
  have hge : ∀ (x y : Rat) (s t : String), ¬x < y →
      select_ratio x s y t = ⟨y / x, t, s, y, x⟩ :=
    fun x y s t hxy => by rw [select_ratio, if_neg hxy]
  have hr : (select_ratio mb b ma a).ratio = (select_ratio ma a mb b).ratio := by
    rcases lt_trichotomy ma mb with h | h | h
    · rw [hge mb ma b a (not_lt.mpr h.le), hlt ma mb a b h]
    · rw [hge mb ma b a (by rw [h]; exact lt_irrefl mb),
        hge ma mb a b (by rw [h]; exact lt_irrefl mb), h]
    · rw [hlt mb ma b a h, hge ma mb a b (not_lt.mpr h.le)]
  refine ⟨hr, by rw [hr], ?_, ?_, fun total_length => by rw [hr]⟩
  · intro hne
    rcases lt_trichotomy ma mb with h | h | h
    · rw [hge mb ma b a (not_lt.mpr h.le), hlt ma mb a b h]
    · exact absurd h hne
    · rw [hlt mb ma b a h, hge ma mb a b (not_lt.mpr h.le)]
  · intro he
    subst he
    rw [hge ma ma a b (lt_irrefl ma), hge ma ma b a (lt_irrefl ma)]
    exact ⟨rfl, rfl, rfl, rfl⟩

/-- C8 (witness): the amended theorem applied at caps 1 and 2 (unequal:
identical selections) and at the tie 1 and 1 (labels swap). -/
theorem C8_amended_witness :
    select_ratio (2 : Rat) "y" 1 "x" = select_ratio 1 "x" 2 "y"
    ∧ (select_ratio (1 : Rat) "x" 1 "y").numerator_asset = "y" :=
  ⟨(C8_amended_swap_behaviour 1 2 "x" "y").2.2.1 (by norm_num),
    ((C8_amended_swap_behaviour 1 1 "x" "y").2.2.2.1 rfl).1⟩

/-- C9: on any 2xx response whose body decodes with a first candle, the
gold adapter returns exactly close price times tonnage times
TONNE_TO_OUNCE. -/
theorem C9_gold_close_times_tonnage_times_constant :
    ∀ (above_ground : Rat) (body : String) (agg : AggsTickerV2)
      (first : OHCL) (rest : List OHCL),
    from_str_AggsTickerV2 body = Except.ok agg →
    agg.results = first :: rest →
    return_gold_market_cap above_ground ⟨200, body⟩
      = RunResult.ok (first.c * above_ground * TONNE_TO_OUNCE) := by
  intro above_ground body agg first rest hdec hres
  have hst : status_is_success 200 = true := rfl
  simp only [return_gold_market_cap, hst, if_true, hdec, hres]

/-- A gold 2xx body with one candle whose close price is 2. -/
def gold_one_candle_body : String :=
  "\x7b\"ticker\":\"C:XAUUSD\",\"queryCount\":1,\"resultsCount\":1,\"adjusted\":true,\"results\":[\x7b\"T\":\"C:XAUUSD\",\"v\":1,\"vw\":1,\"o\":1,\"c\":2,\"h\":1,\"l\":1,\"t\":1,\"n\":1\x7d],\"status\":\"OK\",\"request_id\":\"r\",\"count\":1\x7d"

/-- C9 (witness): the theorem applied to a concrete one-candle body with
close price 2 and tonnage 3. -/
theorem C9_witness :
    return_gold_market_cap 3 ⟨200, gold_one_candle_body⟩
      = RunResult.ok (2 * 3 * TONNE_TO_OUNCE) :=
  C9_gold_close_times_tonnage_times_constant 3 gold_one_candle_body
    ⟨"C:XAUUSD", 1, 1, true, [⟨"C:XAUUSD", 1, 1, 1, 2, 1, 1, 1, 1⟩], "OK", "r", 1⟩
    ⟨"C:XAUUSD", 1, 1, 1, 2, 1, 1, 1, 1⟩ [] (by decide) rfl

/-- C10: a 2xx crypto response whose body is the literal two-character
empty-array string yields CoingeckoApi carrying that body, even though
the body itself would decode to an empty list: the adapter returns
before decoding or indexing. -/
theorem C10_crypto_empty_array_literal :
    return_cyrpto_market_cap "foobar" ⟨200, "[]"⟩
      = RunResult.error (Error.CoingeckoApi "[]")
    ∧ from_str_CoingeckoMarketsList "[]" = Except.ok [] := by
  decide
